import Mathlib

/-
Shallow embedding of the PoodlePilot UI fragment:
  src/selfdrive/ui/device.h, src/selfdrive/ui/device.cc,
  src/selfdrive/ui/flutter_bridge.cc, src/selfdrive/ui/agnos_flutter/main.cc.

The program is glue code: a Device with a boolean awake flag whose setter
forwards to Hardware::set_display_power on change, a method-name dispatcher
over two string commands, a guarded camera-frame send, and an unguarded
periodic push loop. Hardware calls and channel invocations are modelled as
explicit event traces so that "exactly one call" style properties are
statements about lists.
-/

namespace PoodlePilot

/-- Handle standing for a non-null FlMethodChannel pointer; the nullable
pointer itself is `Option Channel` with `none` for nullptr. -/
abbrev Channel := Unit

/-- Values carried over the method channel (FlValue): byte lists from
fl_value_new_uint8_list, strings from fl_value_new_string. -/
inductive FlVal where
  | bytes (bs : List Nat) : FlVal
  | str (s : String) : FlVal
deriving DecidableEq

/-- State of a Device object: the awake flag declared `bool awake = false`
in device.h, plus the trace of arguments passed to
Hardware::set_display_power (oldest first), recording each hardware power
call the object has forwarded. -/
structure DeviceState where
  awake : Bool
  hwCalls : List Bool
deriving DecidableEq

/-- Field-initialized state of a Device before the constructor body runs:
`bool awake = false` and no hardware call made yet. -/
def deviceInit : DeviceState := { awake := false, hwCalls := [] }

/-- Device::setAwake(bool on): `if (on != awake) { awake = on;
Hardware::set_display_power(awake); }`. On change it updates the flag and
appends one hardware call with the new value; otherwise it does nothing.
It is total (void return, no failure path). -/
def setAwake (s : DeviceState) (o : Bool) : DeviceState :=
  if o ≠ s.awake then { awake := o, hwCalls := s.hwCalls ++ [o] } else s

/-- Device::Device: starting from the field initializer, the constructor
body runs setAwake(true). -/
def Device.construct : DeviceState := setAwake deviceInit true

/-- Rendering of a C++ bool by std::cout (prints 1 or 0). -/
def coutBool (b : Bool) : String := if b then "1" else "0"

/-- method_call_handler from flutter_bridge.cc: strcmp dispatch on the
method name. "setMetric" reads the boolean argument and logs it to stdout
(the TODO leaves the value unsaved); "setAwake" forwards the boolean to
device()->setAwake; any other name falls through with no effect. The
result is the device state after the call and the list of stdout lines
produced. -/
def method_call_handler (method : String) (arg : Bool) (s : DeviceState) :
    DeviceState × List String :=
  if method = "setMetric" then
    (s, ["is_metric: " ++ coutBool arg])
  else if method = "setAwake" then
    (setAwake s arg, [])
  else
    (s, [])

/-- Wrap an integer into the range of a 32-bit signed int (the C++ `int`
the frame-size expression is computed in). -/
def wrap32 (n : Int) : Int := (n + 2 ^ 31) % 2 ^ 32 - 2 ^ 31

/-- Byte count passed to fl_value_new_uint8_list in
flutter_bridge_send_camera_frame: `width * height * 3 / 2`, left
associated, every intermediate an `int`, with C++ truncating division. -/
def camBytes (w h : Int) : Int :=
  Int.tdiv (wrap32 (wrap32 (wrap32 w * wrap32 h) * 3)) 2

/-- Event of one channel invocation or sleep performed by the bridge; the
invocation records the channel pointer value actually passed to
fl_method_channel_invoke_method (possibly null). -/
inductive LoopEvent where
  | sleep (secs : Nat) : LoopEvent
  | invoke (ch : Option Channel) (meth : String) (payload : FlVal) : LoopEvent
deriving DecidableEq

/-- flutter_bridge_send_camera_frame(data, width, height): when the channel
is null nothing happens; otherwise one invocation of "updateCameraFrame"
is made whose payload is built from the first `width * height * 3 / 2`
bytes of the input buffer (int arithmetic, negative counts clamp to an
empty read). -/
def flutter_bridge_send_camera_frame (ch : Option Channel) (data : List Nat)
    (w h : Int) : List LoopEvent :=
  match ch with
  | none => []
  | some c =>
      [LoopEvent.invoke (some c) "updateCameraFrame"
        (FlVal.bytes (List.take (camBytes w h).toNat data))]

/-- String literal sent under "updateDeviceInfo" (the source literal spans
a line break, so it ends in a newline). -/
def deviceInfoPayload : String := "Device Info: ...\n"

/-- String literal sent under "updateCarInfo". -/
def carInfoPayload : String := "Car Info: ...\n"

/-- Condition of the `while (true)` loop in send_data: constantly true, so
the loop has no exit, cancellation or shutdown condition. -/
def send_data_cond : Bool := true

/-- Body of one iteration of send_data: sleep one second, then invoke
"updateDeviceInfo" and "updateCarInfo" on the channel, in that order, with
no null check on the channel before either invocation. -/
def send_data_body (ch : Option Channel) : List LoopEvent :=
  [ LoopEvent.sleep 1,
    LoopEvent.invoke ch "updateDeviceInfo" (FlVal.str deviceInfoPayload),
    LoopEvent.invoke ch "updateCarInfo" (FlVal.str carInfoPayload) ]

/-- Event trace of the first n iterations of the send_data loop; the loop
is defined at every n because `while (true)` never stops iterating. -/
def send_data_run (ch : Option Channel) : Nat → List LoopEvent
  | 0 => []
  | n + 1 => send_data_run ch n ++ send_data_body ch

/-- Process-wide state of the function-local static in `Device *device()`:
the cell holding the static Device once constructed, plus a count of how
many times the Device constructor has run. -/
structure ProcState where
  cell : Option DeviceState
  ctorRuns : Nat
deriving DecidableEq

/-- Fresh process: the static is not yet constructed. -/
def procInit : ProcState := { cell := none, ctorRuns := 0 }

/-- One call of `Device *device()`: on first call the static `_device` is
constructed and its address returned; on later calls the existing object
is returned unchanged. -/
def device_fn (p : ProcState) : DeviceState × ProcState :=
  match p.cell with
  | some d => (d, p)
  | none =>
      (Device.construct, { cell := some Device.construct, ctorRuns := p.ctorRuns + 1 })

/-- Process state after n successive calls of device() from a fresh
process. -/
def deviceCalls : Nat → ProcState
  | 0 => procInit
  | n + 1 => (device_fn (deviceCalls n)).2

/-- Invariant relating a Device state to its hardware-call trace: the value
most recently passed to Hardware::set_display_power equals the current
awake flag. -/
def hwInSync (s : DeviceState) : Prop := s.hwCalls.getLast? = some s.awake

/-- Identity of the 32-bit wrap on in-range values. -/
theorem wrap32_eq_of_range (n : Int) (h1 : -(2 ^ 31) ≤ n) (h2 : n < 2 ^ 31) :
    wrap32 n = n := by
  unfold wrap32
  omega

/-- Preservation of the flag/hardware-trace agreement by one setAwake. -/
theorem hwInSync_setAwake (s : DeviceState) (b : Bool) (h : hwInSync s) :
    hwInSync (setAwake s b) := by
  unfold hwInSync setAwake
  by_cases hb : b = s.awake
  · rw [if_neg (not_not_intro hb)]
    exact h
  · rw [if_pos hb]
    simp

/-- Preservation of the flag/hardware-trace agreement by any sequence of
setAwake calls. -/
theorem hwInSync_foldl (ops : List Bool) (s : DeviceState) (h : hwInSync s) :
    hwInSync (List.foldl setAwake s ops) := by
  induction ops generalizing s with
  | nil => exact h
  | cons b bs ih => exact ih (setAwake s b) (hwInSync_setAwake s b h)

/-- State of the device() static after at least one call: constructed once,
and every call returns that same object. -/
theorem deviceCalls_succ (n : Nat) :
    deviceCalls (n + 1) = { cell := some Device.construct, ctorRuns := 1 } := by
  induction n with
  | zero => rfl
  | succ m ih =>
      show (device_fn (deviceCalls (m + 1))).2 = _
      rw [ih]
      rfl

/-- C1: for every boolean `o` and Device state, setAwake flips the flag to
`o` and forwards exactly one hardware power call with the new value when
`o` differs from the current flag, and changes nothing (no hardware call)
when it is equal; it is a total function with no failure outcome. -/
theorem setAwake_contract (s : DeviceState) (o : Bool) :
    (o ≠ s.awake →
      setAwake s o = { awake := o, hwCalls := s.hwCalls ++ [o] }) ∧
    (o = s.awake → setAwake s o = s) := by
  constructor
  · intro h
    unfold setAwake
    rw [if_pos h]
  · intro h
    unfold setAwake
    rw [if_neg (not_not_intro h)]

/-- Witness for C1 at concrete inputs in both branches. -/
theorem setAwake_contract_witness :
    setAwake deviceInit true = { awake := true, hwCalls := [true] } ∧
    setAwake deviceInit false = deviceInit :=
  ⟨(setAwake_contract deviceInit true).1 (by decide),
   (setAwake_contract deviceInit false).2 (by decide)⟩

/-- C2: a method call whose name is neither "setMetric" nor "setAwake"
leaves the device state (awake flag and hardware-call trace) unchanged and
produces no output: the command is silently dropped with no error. -/
theorem unknown_method_noop (m : String) (b : Bool) (s : DeviceState)
    (h1 : m ≠ "setMetric") (h2 : m ≠ "setAwake") :
    method_call_handler m b s = (s, []) := by
  unfold method_call_handler
  rw [if_neg h1, if_neg h2]

/-- Witness for C2 at a concrete unrecognized command name. -/
theorem unknown_method_noop_witness :
    method_call_handler "shutdown" true deviceInit = (deviceInit, []) :=
  unknown_method_noop "shutdown" true deviceInit (by decide) (by decide)

/-- C3: starting from the field-initialized flag (false), setAwake(true)
followed by setAwake(true) again leaves exactly one hardware power call in
the trace; equivalently, a second setAwake(true) on the constructed Device
is a no-op under the change-check. -/
theorem setAwake_true_twice_one_hw_call :
    (setAwake (setAwake deviceInit true) true).hwCalls = [true] ∧
    setAwake Device.construct true = Device.construct := by
  decide

/-- C4: immediately after Device construction the awake flag is true; the
field initializer declares it false and the constructor drives it to true
via setAwake(true). -/
theorem construct_awake_true :
    deviceInit.awake = false ∧
    Device.construct = setAwake deviceInit true ∧
    Device.construct.awake = true := by
  decide

/-- C5: the dispatcher maps "setAwake" with boolean argument b to the
device setAwake(b) with no output, and "setMetric" to a stdout log of the
boolean with the device state unchanged. -/
theorem dispatcher_two_commands (s : DeviceState) (b : Bool) :
    method_call_handler "setAwake" b s = (setAwake s b, []) ∧
    method_call_handler "setMetric" b s = (s, ["is_metric: " ++ coutBool b]) := by
  constructor <;> rfl

/-- C6: the null-channel guard exists only at the camera-frame send site:
with a null channel flutter_bridge_send_camera_frame performs no send,
while an iteration of the push loop still performs its two invocations
unconditionally, passing the null channel to both. -/
theorem null_guard_only_at_camera_frame (data : List Nat) (w h : Int) :
    flutter_bridge_send_camera_frame none data w h = [] ∧
    send_data_body none =
      [ LoopEvent.sleep 1,
        LoopEvent.invoke none "updateDeviceInfo" (FlVal.str deviceInfoPayload),
        LoopEvent.invoke none "updateCarInfo" (FlVal.str carInfoPayload) ] := by
  exact ⟨rfl, rfl⟩

/-- C7: the push loop has a constantly-true condition (no exit), and every
iteration n exists and consists of a one-second sleep followed by the
"updateDeviceInfo" send and then the "updateCarInfo" send, each carrying
its fixed string payload, in that order. -/
theorem send_data_forever (ch : Option Channel) (n : Nat) :
    send_data_cond = true ∧
    send_data_run ch (n + 1) = send_data_run ch n ++
      [ LoopEvent.sleep 1,
        LoopEvent.invoke ch "updateDeviceInfo" (FlVal.str "Device Info: ...\n"),
        LoopEvent.invoke ch "updateCarInfo" (FlVal.str "Car Info: ...\n") ] := by
  exact ⟨rfl, rfl⟩

/-- C8: from construction onward, after any sequence of completed setAwake
calls, the value most recently forwarded to Hardware::set_display_power
equals the current awake flag. -/
theorem hw_matches_awake_invariant (ops : List Bool) :
    hwInSync (List.foldl setAwake Device.construct ops) :=
  hwInSync_foldl ops Device.construct (by unfold hwInSync; decide)

/-- C9: after any positive number of device() calls in a process, the
static holds the one constructed Device, the constructor has run exactly
once, and the call returns that same Device. -/
theorem device_singleton (n : Nat) (h : 1 ≤ n) :
    (deviceCalls n).cell = some Device.construct ∧
    (deviceCalls n).ctorRuns = 1 ∧
    (device_fn (deviceCalls n)).1 = Device.construct := by
  obtain ⟨m, rfl⟩ : ∃ m, n = m + 1 := ⟨n - 1, by omega⟩
  rw [deviceCalls_succ]
  exact ⟨rfl, rfl, rfl⟩

/-- Witness for C9 at three calls. -/
theorem device_singleton_witness :
    (deviceCalls 3).cell = some Device.construct ∧
    (deviceCalls 3).ctorRuns = 1 ∧
    (device_fn (deviceCalls 3)).1 = Device.construct :=
  device_singleton 3 (by decide)

/-- C10: with a non-null channel and dimensions whose products stay inside
32-bit int range, flutter_bridge_send_camera_frame sends one
"updateCameraFrame" invocation whose payload is exactly the first
(width * height * 3) / 2 bytes of the buffer, with C++ truncating integer
division; outside that range the computation wraps in the int type. -/
theorem camera_frame_int_arith (ch : Channel) (data : List Nat) (w h : Int)
    (hw1 : -(2 ^ 31) ≤ w) (hw2 : w < 2 ^ 31)
    (hh1 : -(2 ^ 31) ≤ h) (hh2 : h < 2 ^ 31)
    (hp1 : -(2 ^ 31) ≤ w * h) (hp2 : w * h < 2 ^ 31)
    (ht1 : -(2 ^ 31) ≤ w * h * 3) (ht2 : w * h * 3 < 2 ^ 31) :
    flutter_bridge_send_camera_frame (some ch) data w h =
      [LoopEvent.invoke (some ch) "updateCameraFrame"
        (FlVal.bytes (List.take (Int.tdiv (w * h * 3) 2).toNat data))] := by
  have e : camBytes w h = Int.tdiv (w * h * 3) 2 := by
    unfold camBytes
    rw [wrap32_eq_of_range w hw1 hw2, wrap32_eq_of_range h hh1 hh2,
      wrap32_eq_of_range (w * h) hp1 hp2, wrap32_eq_of_range (w * h * 3) ht1 ht2]
  unfold flutter_bridge_send_camera_frame
  rw [e]

/-- Witness for C10 at 3 by 3 dimensions (odd product 27 truncates to 13
bytes taken from a 20-byte buffer). -/
theorem camera_frame_int_arith_witness :
    flutter_bridge_send_camera_frame (some ()) (List.range 20) 3 3 =
      [LoopEvent.invoke (some ()) "updateCameraFrame"
        (FlVal.bytes (List.take (Int.tdiv (3 * 3 * 3) 2).toNat (List.range 20)))] :=
  camera_frame_int_arith () (List.range 20) 3 3 (by decide) (by decide)
    (by decide) (by decide) (by decide) (by decide) (by decide) (by decide)

end PoodlePilot
